import Mathlib

/-!
Shallow embedding of the Personal-Weather-App weather-resolution pipeline and
client-side session state machine, together with proofs about the claims of
its specification.

The embedding follows the authoritative sources:
  * the server flow file (searchCities, getCurrentWeather, weatherSummaryPrompt,
    getWeather / getWeatherFlow, WEATHER_CODES), and
  * the tabbed client component (handleGetWeather, handleCitySearch, removeCity,
    handleUnitChange).

Network and model calls are modelled as an explicit environment of oracles:
a fetch that may fail at transport level returns Option (none = non-ok
response), and the language-model summary call returns Except String String
(error = rejected promise / null output).  Numeric weather fields are modelled
as integers; no claim depends on float arithmetic.
-/

namespace WeatherApp

/-- Temperature unit enum, source: type TemperatureUnit = "celsius" | "fahrenheit". -/
inductive TempUnit where
  | celsius
  | fahrenheit
deriving DecidableEq, Repr

/-- One element of GeocodingResponse.results: latitude, longitude, name, country. -/
structure GeoLocation where
  latitude : Int
  longitude : Int
  name : String
  country : String
deriving DecidableEq, Repr

/-- Source interface GeocodingResponse: the results field is optional (may be absent). -/
structure GeocodingResponse where
  results : Option (List GeoLocation)
deriving DecidableEq, Repr

/-- Source interface WeatherResponse.current. -/
structure CurrentWeather where
  temperature_2m : Int
  wind_speed_10m : Int
  weather_code : Int
  relative_humidity_2m : Int
  precipitation : Int
  apparent_temperature : Int
deriving DecidableEq, Repr

/-- Source type GetWeatherInput: city plus temperature unit (Zod default: celsius). -/
structure GetWeatherInput where
  city : String
  temperature_unit : TempUnit
deriving DecidableEq, Repr

/-- The conditions part of GetWeatherOutput (output schema of the getCurrentWeather
tool, i.e. GetWeatherOutputSchema.omit summary). -/
structure ConditionsData where
  temperature : Int
  windSpeed : Int
  weatherCondition : String
  humidity : Int
  precipitation : Int
  apparentTemperature : Int
deriving DecidableEq, Repr

/-- Source type GetWeatherOutput: the conditions fields together with the summary. -/
structure GetWeatherOutput extends ConditionsData where
  summary : String
deriving DecidableEq, Repr

/-- A geocoding search request for the suggestion variant; the source builds the URL
with a name parameter and a count parameter (count=5 in searchCities). -/
structure GeoSearchRequest where
  name : String
  count : Nat
deriving DecidableEq, Repr

/-- Environment of external oracles: geocoding fetch, forecast fetch, the
language-model summary prompt, and the suggestion geocoding fetch.  Option none
models a non-ok HTTP response; Except.error models a rejected summary call
(or a null output followed by the non-null assertion). -/
structure WeatherEnv where
  geo : String → Option GeocodingResponse
  wx : Int → Int → TempUnit → Option CurrentWeather
  summarize : ConditionsData → String → TempUnit → Except String String
  search : GeoSearchRequest → Option GeocodingResponse

/-- Source constant WEATHER_CODES: the fixed partial map from integer weather code
to human-readable label (28 entries). -/
def WEATHER_CODES (code : Int) : Option String :=
  if code = 0 then some "Clear sky"
  else if code = 1 then some "Mainly clear"
  else if code = 2 then some "Partly cloudy"
  else if code = 3 then some "Overcast"
  else if code = 45 then some "Fog"
  else if code = 48 then some "Depositing rime fog"
  else if code = 51 then some "Light drizzle"
  else if code = 53 then some "Moderate drizzle"
  else if code = 55 then some "Dense drizzle"
  else if code = 56 then some "Light freezing drizzle"
  else if code = 57 then some "Dense freezing drizzle"
  else if code = 61 then some "Slight rain"
  else if code = 63 then some "Moderate rain"
  else if code = 65 then some "Heavy rain"
  else if code = 66 then some "Light freezing rain"
  else if code = 67 then some "Heavy freezing rain"
  else if code = 71 then some "Slight snow fall"
  else if code = 73 then some "Moderate snow fall"
  else if code = 75 then some "Heavy snow fall"
  else if code = 77 then some "Snow grains"
  else if code = 80 then some "Slight rain showers"
  else if code = 81 then some "Moderate rain showers"
  else if code = 82 then some "Violent rain showers"
  else if code = 85 then some "Slight snow showers"
  else if code = 86 then some "Heavy snow showers"
  else if code = 95 then some "Thunderstorm"
  else if code = 96 then some "Thunderstorm with slight hail"
  else if code = 99 then some "Thunderstorm with heavy hail"
  else none

/-- The label expression used by getCurrentWeather:
WEATHER_CODES at the code, with nullish-coalescing fallback "Unknown condition". -/
def label (code : Int) : String :=
  (WEATHER_CODES code).getD "Unknown condition"

/-- Source tool getCurrentWeather: geocode the city (first result or error
"Could not find location"), then fetch current conditions for the coordinates and
unit, translating the weather code through WEATHER_CODES with its fallback. -/
def getCurrentWeather (env : WeatherEnv) (city : String) (temperature_unit : TempUnit) :
    Except String ConditionsData :=
  match env.geo city with
  | none => .error ("Failed to fetch geocoding data for " ++ city)
  | some geoData =>
    match geoData.results.bind List.head? with
    | none => .error ("Could not find location: " ++ city)
    | some location =>
      match env.wx location.latitude location.longitude temperature_unit with
      | none => .error "Failed to fetch weather data."
      | some current =>
        .ok { temperature := current.temperature_2m
              windSpeed := current.wind_speed_10m
              weatherCondition := label current.weather_code
              humidity := current.relative_humidity_2m
              precipitation := current.precipitation
              apparentTemperature := current.apparent_temperature }

/-- Source flow getWeatherFlow: await getCurrentWeather, then await the
weatherSummaryPrompt on the conditions data and return the conditions extended
with the generated summary.  The prompt call is not guarded: its failure
propagates out of the flow. -/
def getWeatherFlow (env : WeatherEnv) (input : GetWeatherInput) :
    Except String GetWeatherOutput :=
  match getCurrentWeather env input.city input.temperature_unit with
  | .error e => .error e
  | .ok weatherData =>
    match env.summarize weatherData input.city input.temperature_unit with
    | .error e => .error e
    | .ok s => .ok { weatherData with summary := s }

/-- Source export getWeather: delegates to getWeatherFlow. -/
def getWeather (env : WeatherEnv) (input : GetWeatherInput) :
    Except String GetWeatherOutput :=
  getWeatherFlow env input

/-- Source export searchCities: empty result and no network request for queries
shorter than 2 characters; otherwise one geocoding request with count=5, mapping
the (possibly absent) results array to name/country pairs.  The second component
records the issued network requests. -/
def searchCities (env : WeatherEnv) (query : String) :
    Except String (List (String × String)) × List GeoSearchRequest :=
  if query = "" ∨ query.length < 2 then (.ok [], [])
  else
    match env.search { name := query, count := 5 } with
    | none =>
      (.error ("Failed to fetch geocoding data for " ++ query), [{ name := query, count := 5 }])
    | some geoData =>
      (.ok ((geoData.results.getD []).map fun r => (r.name, r.country)),
       [{ name := query, count := 5 }])

/-- Client session state of the tabbed WeatherApp component: the saved-city list,
the active tab, the per-city weather mapping (a JS object: absent key = no entry,
null value = loading/cleared entry), and the selected temperature unit. -/
structure AppState where
  savedCities : List String
  activeTab : String
  weatherData : String → Option (Option GetWeatherOutput)
  tempUnit : TempUnit

/-- Object-spread update of the weather mapping, source:
setWeatherData with a spread of prev and one keyed field. -/
def setWeatherEntry (m : String → Option (Option GetWeatherOutput)) (k : String)
    (v : Option GetWeatherOutput) : String → Option (Option GetWeatherOutput) :=
  fun k2 => if k2 = k then some v else m k2

/-- The delete operator on the weather mapping, source: delete newWeatherData of
the removed city in removeCity. -/
def deleteWeatherEntry (m : String → Option (Option GetWeatherOutput)) (k : String) :
    String → Option (Option GetWeatherOutput) :=
  fun k2 => if k2 = k then none else m k2

/-- Source callback handleGetWeather: guard against the empty city, clear the
city's mapping entry to null, await getWeather; on success store the snapshot,
append the city to savedCities when absent, and make it the active tab; on
failure only the toast is shown.  The second component records the getWeather
requests issued by this call (always exactly one when the guard passes). -/
def handleGetWeather (env : WeatherEnv) (s : AppState) (searchCity : String)
    (unit : TempUnit) : AppState × List GetWeatherInput :=
  if searchCity = "" then (s, [])
  else
    let s1 : AppState := { s with weatherData := setWeatherEntry s.weatherData searchCity none }
    match getWeather env { city := searchCity, temperature_unit := unit } with
    | .error _ => (s1, [{ city := searchCity, temperature_unit := unit }])
    | .ok weatherResult =>
      let s2 : AppState :=
        { s1 with weatherData := setWeatherEntry s1.weatherData searchCity (some weatherResult) }
      let s3 : AppState :=
        if searchCity ∈ s2.savedCities then s2
        else { s2 with savedCities := s2.savedCities ++ [searchCity] }
      ({ s3 with activeTab := searchCity }, [{ city := searchCity, temperature_unit := unit }])

/-- Source callback removeCity: filter the city out of savedCities, delete its
cached snapshot, and reassign the active tab: to the first remaining city when
the removed city was active and some remain, to the empty string when none
remain, and otherwise leave it unchanged. -/
def removeCity (s : AppState) (cityToRemove : String) : AppState :=
  let newSavedCities := s.savedCities.filter (fun c => c ≠ cityToRemove)
  let newWeatherData := deleteWeatherEntry s.weatherData cityToRemove
  let newActive :=
    if s.activeTab = cityToRemove ∧ 0 < newSavedCities.length then newSavedCities.headD ""
    else if newSavedCities.length = 0 then ""
    else s.activeTab
  { savedCities := newSavedCities
    activeTab := newActive
    weatherData := newWeatherData
    tempUnit := s.tempUnit }

/-- Source callback handleUnitChange: set the new unit from the switch position
and, when a tab is active, re-fetch that (and only that) city with the new unit. -/
def handleUnitChange (env : WeatherEnv) (s : AppState) (checked : Bool) :
    AppState × List GetWeatherInput :=
  let newUnit := if checked then TempUnit.fahrenheit else TempUnit.celsius
  let s1 : AppState := { s with tempUnit := newUnit }
  if s1.activeTab = "" then (s1, [])
  else handleGetWeather env s1 s1.activeTab newUnit

/-- Selecting a tab (the Tabs component's onValueChange is setActiveTab; only the
triggers rendered from savedCities can be selected). -/
def selectTab (s : AppState) (c : String) : AppState :=
  { s with activeTab := c }

/-- Run a sequence of resolution requests (city, unit) through handleGetWeather,
threading the state. -/
def runResolutions (env : WeatherEnv) (s : AppState) :
    List (String × TempUnit) → AppState
  | [] => s
  | (c, u) :: rest => runResolutions env (handleGetWeather env s c u).1 rest

/-- The session invariant of the spec: the active tab, when set (non-empty),
references an entry currently in savedCities. -/
def ActiveInv (s : AppState) : Prop :=
  s.activeTab ≠ "" → s.activeTab ∈ s.savedCities

/-!
Trailing-debounce model of handleCitySearch.  A keystroke updates the input
value immediately, cancels any pending scheduled suggestion fetch
(clearTimeout), and, when the query is longer than 1 character, schedules a
fetch of that query 300 ms later.  A scheduled fetch whose deadline has passed
fires, appending its query to the list of issued network calls.
-/

/-- Debounce state: current input value, the single pending timer slot
(deadline, captured query), and the suggestion network calls issued so far. -/
structure DebounceState where
  city : String
  pending : Option (Nat × String)
  calls : List String
deriving DecidableEq, Repr

/-- Source constant: the debounce quiet period in milliseconds. -/
def DEBOUNCE_MS : Nat := 300

/-- Fire the pending timer if its deadline has been reached at time t. -/
def firePending (t : Nat) (s : DebounceState) : DebounceState :=
  match s.pending with
  | none => s
  | some (d, q) =>
    if d ≤ t then { s with pending := none, calls := s.calls ++ [q] } else s

/-- Source callback handleCitySearch at time t with query q: set the input,
clear any pending timer, and schedule a fetch of q at t + 300 when q is longer
than one character. -/
def handleCitySearch (t : Nat) (q : String) (s : DebounceState) : DebounceState :=
  let s1 : DebounceState := { s with city := q, pending := none }
  if 1 < q.length then { s1 with pending := some (t + DEBOUNCE_MS, q) } else s1

/-- Process a time-ordered list of keystroke events: at each event time, first
fire any expired timer, then apply the keystroke. -/
def runKeystrokes (s : DebounceState) : List (Nat × String) → DebounceState
  | [] => s
  | (t, q) :: rest => runKeystrokes (handleCitySearch t q (firePending t s)) rest

/-- Let time run to the end: any still-pending timer fires. -/
def flushTimers (s : DebounceState) : DebounceState :=
  match s.pending with
  | none => s
  | some (_, q) => { s with pending := none, calls := s.calls ++ [q] }

/-- Keystroke events are rapid: time-ordered with each consecutive gap strictly
below the debounce period. -/
def withinWindow : List (Nat × String) → Prop
  | [] => True
  | [_] => True
  | (t1, _) :: (t2, q2) :: rest =>
    t1 ≤ t2 ∧ t2 < t1 + DEBOUNCE_MS ∧ withinWindow ((t2, q2) :: rest)

/-! Concrete demo environments and states used by witnesses and counterexamples. -/

/-- A concrete geocoding result. -/
def demoLocation : GeoLocation :=
  { latitude := 48, longitude := 2, name := "Paris", country := "France" }

/-- A concrete current-conditions record with weather code 0 (clear sky). -/
def demoCurrent : CurrentWeather :=
  { temperature_2m := 20, wind_speed_10m := 10, weather_code := 0,
    relative_humidity_2m := 50, precipitation := 0, apparent_temperature := 19 }

/-- The conditions data getCurrentWeather assembles from demoCurrent. -/
def demoConditions : ConditionsData :=
  { temperature := 20, windSpeed := 10, weatherCondition := "Clear sky",
    humidity := 50, precipitation := 0, apparentTemperature := 19 }

/-- An environment in which every external call succeeds. -/
def demoEnv : WeatherEnv where
  geo := fun _ => some { results := some [demoLocation] }
  wx := fun _ _ _ => some demoCurrent
  summarize := fun _ _ _ => .ok "A lovely day."
  search := fun _ => some { results := some [demoLocation] }

/-- An environment in which geocoding and conditions succeed but the
narrative-summarizer call fails. -/
def summaryFailEnv : WeatherEnv where
  geo := fun _ => some { results := some [demoLocation] }
  wx := fun _ _ _ => some demoCurrent
  summarize := fun _ _ _ => .error "Summary generation failed."
  search := fun _ => none

/-- The weather snapshot produced by demoEnv. -/
def demoOutput : GetWeatherOutput :=
  { demoConditions with summary := "A lovely day." }

/-! Claim theorems. -/

/-- C1 counterexample: in a run where the conditions data is obtained
successfully but the optional narrative-summarizer step fails, getWeather does
not complete with the conditions data and an empty or absent summary — it fails
with the summarizer's error. -/
theorem c1_summary_failure_fatal_cex :
    getCurrentWeather summaryFailEnv "Paris" TempUnit.celsius = .ok demoConditions ∧
    getWeather summaryFailEnv { city := "Paris", temperature_unit := TempUnit.celsius } =
      .error "Summary generation failed." := by
  exact ⟨rfl, rfl⟩

/-- C1 (amended): a failure of the narrative-summarizer step is fatal to the
pipeline: whenever the conditions data is obtained successfully and the
summarizer call fails, getWeather propagates that failure and returns no
conditions data. -/
theorem c1_summary_failure_propagates (env : WeatherEnv) (input : GetWeatherInput)
    (w : ConditionsData) (e : String)
    (hc : getCurrentWeather env input.city input.temperature_unit = .ok w)
    (hs : env.summarize w input.city input.temperature_unit = .error e) :
    getWeather env input = .error e := by
  unfold getWeather getWeatherFlow
  simp only [hc, hs]

/-- C1 witness: the amended theorem applied to the concrete failing environment. -/
theorem c1_summary_failure_propagates_witness :
    getWeather summaryFailEnv { city := "Paris", temperature_unit := TempUnit.celsius } =
      .error "Summary generation failed." :=
  c1_summary_failure_propagates summaryFailEnv
    { city := "Paris", temperature_unit := TempUnit.celsius }
    demoConditions "Summary generation failed." rfl rfl

/-- C6: for a city whose geocoding lookup returns zero results, the resolution
pipeline fails with the not-found error, and a handleGetWeather run for that
city leaves savedCities unchanged (no append, no removal). -/
theorem c6_zero_results_not_found (env : WeatherEnv) (s : AppState)
    (c : String) (u : TempUnit) (g : GeocodingResponse)
    (hgeo : env.geo c = some g) (hzero : g.results = some []) :
    getWeather env { city := c, temperature_unit := u } =
      .error ("Could not find location: " ++ c) ∧
    (handleGetWeather env s c u).1.savedCities = s.savedCities := by
  have hcw : getCurrentWeather env c u = .error ("Could not find location: " ++ c) := by
    unfold getCurrentWeather
    simp [hgeo, hzero]
  have hgw : getWeather env { city := c, temperature_unit := u } =
      .error ("Could not find location: " ++ c) := by
    unfold getWeather getWeatherFlow
    rw [hcw]
  refine ⟨hgw, ?_⟩
  unfold handleGetWeather
  by_cases hc : c = ""
  · simp [hc]
  · simp only [hc, if_false, hgw]

/-- C6 witness: a concrete environment whose geocoding lookup returns an empty
results array. -/
theorem c6_zero_results_not_found_witness :
    getWeather { geo := fun _ => some { results := some [] },
                 wx := fun _ _ _ => some demoCurrent,
                 summarize := fun _ _ _ => .ok "x",
                 search := fun _ => none }
        { city := "Atlantis", temperature_unit := TempUnit.celsius } =
      .error ("Could not find location: " ++ "Atlantis") ∧
    (handleGetWeather { geo := fun _ => some { results := some [] },
                        wx := fun _ _ _ => some demoCurrent,
                        summarize := fun _ _ _ => .ok "x",
                        search := fun _ => none }
        { savedCities := ["Paris"], activeTab := "Paris",
          weatherData := fun _ => none, tempUnit := TempUnit.celsius }
        "Atlantis" TempUnit.celsius).1.savedCities = ["Paris"] :=
  c6_zero_results_not_found _
    { savedCities := ["Paris"], activeTab := "Paris",
      weatherData := fun _ => none, tempUnit := TempUnit.celsius }
    "Atlantis" TempUnit.celsius { results := some [] } rfl rfl

/-- C7: the condition-code translator returns exactly the documented label for
each of the 28 codes of the fixed table, and the literal string
"Unknown condition" for every integer absent from the table. -/
theorem c7_label_table_and_fallback :
    (label 0 = "Clear sky" ∧ label 1 = "Mainly clear" ∧ label 2 = "Partly cloudy" ∧
     label 3 = "Overcast" ∧ label 45 = "Fog" ∧ label 48 = "Depositing rime fog" ∧
     label 51 = "Light drizzle" ∧ label 53 = "Moderate drizzle" ∧
     label 55 = "Dense drizzle" ∧ label 56 = "Light freezing drizzle" ∧
     label 57 = "Dense freezing drizzle" ∧ label 61 = "Slight rain" ∧
     label 63 = "Moderate rain" ∧ label 65 = "Heavy rain" ∧
     label 66 = "Light freezing rain" ∧ label 67 = "Heavy freezing rain" ∧
     label 71 = "Slight snow fall" ∧ label 73 = "Moderate snow fall" ∧
     label 75 = "Heavy snow fall" ∧ label 77 = "Snow grains" ∧
     label 80 = "Slight rain showers" ∧ label 81 = "Moderate rain showers" ∧
     label 82 = "Violent rain showers" ∧ label 85 = "Slight snow showers" ∧
     label 86 = "Heavy snow showers" ∧ label 95 = "Thunderstorm" ∧
     label 96 = "Thunderstorm with slight hail" ∧
     label 99 = "Thunderstorm with heavy hail") ∧
    ∀ z : Int,
      z ∉ ([0, 1, 2, 3, 45, 48, 51, 53, 55, 56, 57, 61, 63, 65, 66, 67, 71, 73,
            75, 77, 80, 81, 82, 85, 86, 95, 96, 99] : List Int) →
      label z = "Unknown condition" := by
  constructor
  · exact ⟨rfl, rfl, rfl, rfl, rfl, rfl, rfl, rfl, rfl, rfl, rfl, rfl, rfl, rfl,
      rfl, rfl, rfl, rfl, rfl, rfl, rfl, rfl, rfl, rfl, rfl, rfl, rfl, rfl⟩
  · intro z hz
    simp only [List.mem_cons, List.not_mem_nil, or_false, not_or] at hz
    obtain ⟨h0, h1, h2, h3, h45, h48, h51, h53, h55, h56, h57, h61, h63, h65,
      h66, h67, h71, h73, h75, h77, h80, h81, h82, h85, h86, h95, h96, h99⟩ := hz
    unfold label WEATHER_CODES
    rw [if_neg h0, if_neg h1, if_neg h2, if_neg h3, if_neg h45, if_neg h48,
      if_neg h51, if_neg h53, if_neg h55, if_neg h56, if_neg h57, if_neg h61,
      if_neg h63, if_neg h65, if_neg h66, if_neg h67, if_neg h71, if_neg h73,
      if_neg h75, if_neg h77, if_neg h80, if_neg h81, if_neg h82, if_neg h85,
      if_neg h86, if_neg h95, if_neg h96, if_neg h99]
    rfl

/-- C7 witness: the fallback at the concrete out-of-table code 42. -/
theorem c7_label_fallback_witness : label 42 = "Unknown condition" :=
  c7_label_table_and_fallback.2 42 (by decide)

/-- C8: for every query shorter than 2 characters, searchCities returns the
empty candidate list and issues no network request; and whenever the geocoding
backend honours the requested count parameter, every successful searchCities
result holds at most 5 candidates. -/
theorem c8_searchCities_guard_and_cap (env : WeatherEnv) :
    (∀ q : String, q.length < 2 → searchCities env q = (.ok [], [])) ∧
    ((∀ r g, env.search r = some g → (g.results.getD []).length ≤ r.count) →
      ∀ q l, (searchCities env q).1 = .ok l → l.length ≤ 5) := by
  constructor
  · intro q hq
    unfold searchCities
    rw [if_pos (Or.inr hq)]
  · intro hcap q l h
    unfold searchCities at h
    by_cases hshort : q = "" ∨ q.length < 2
    · rw [if_pos hshort] at h
      obtain rfl := (Except.ok.inj h).symm
      simp
    · rw [if_neg hshort] at h
      cases hsr : env.search { name := q, count := 5 } with
      | none =>
        rw [hsr] at h
        exact absurd h (by simp)
      | some g =>
        rw [hsr] at h
        obtain rfl := (Except.ok.inj h).symm
        simpa using hcap { name := q, count := 5 } g hsr

/-- An environment whose suggestion geocoder returns an empty results array
(and hence honours any requested count bound). -/
def emptySearchEnv : WeatherEnv where
  geo := fun _ => none
  wx := fun _ _ _ => none
  summarize := fun _ _ _ => .error "unused"
  search := fun _ => some { results := some [] }

/-- C8 witness: the guard at a concrete one-character query, and the cap at a
concrete longer query in an environment that honours the count parameter. -/
theorem c8_searchCities_guard_and_cap_witness :
    searchCities emptySearchEnv "P" = (.ok [], []) ∧
    ((searchCities emptySearchEnv "Paris").1 = .ok ([] : List (String × String)) →
      ([] : List (String × String)).length ≤ 5) :=
  ⟨(c8_searchCities_guard_and_cap emptySearchEnv).1 "P" (by decide),
   fun h =>
     (c8_searchCities_guard_and_cap emptySearchEnv).2
       (fun r g hg => by
         cases hg
         simp)
       "Paris" [] h⟩

/-! Helper lemmas about handleGetWeather, shared by several claim proofs. -/

/-- A non-empty search issues exactly one getWeather request, for that city and unit. -/
theorem handleGetWeather_calls (env : WeatherEnv) (s : AppState) (c : String)
    (u : TempUnit) (h : c ≠ "") :
    (handleGetWeather env s c u).2 = [{ city := c, temperature_unit := u }] := by
  unfold handleGetWeather
  rw [if_neg h]
  cases getWeather env { city := c, temperature_unit := u } with
  | error e => rfl
  | ok w => rfl

/-- handleGetWeather never touches another city's weather-mapping entry. -/
theorem handleGetWeather_other_entries (env : WeatherEnv) (s : AppState) (c : String)
    (u : TempUnit) (c2 : String) (h2 : c2 ≠ c) :
    (handleGetWeather env s c u).1.weatherData c2 = s.weatherData c2 := by
  unfold handleGetWeather
  by_cases hc : c = ""
  · rw [if_pos hc]
  · rw [if_neg hc]
    cases getWeather env { city := c, temperature_unit := u } with
    | error e => simp [setWeatherEntry, h2]
    | ok w =>
      dsimp only
      split <;> simp [setWeatherEntry, h2]

/-- When the resolution fails (or the city is empty) savedCities is unchanged. -/
theorem handleGetWeather_savedCities_error (env : WeatherEnv) (s : AppState)
    (c : String) (u : TempUnit) (e : String)
    (hfail : getWeather env { city := c, temperature_unit := u } = .error e) :
    (handleGetWeather env s c u).1.savedCities = s.savedCities := by
  unfold handleGetWeather
  by_cases hc : c = ""
  · rw [if_pos hc]
  · rw [if_neg hc, hfail]

/-- When the resolution fails (or the city is empty) the active tab is unchanged. -/
theorem handleGetWeather_activeTab_error (env : WeatherEnv) (s : AppState)
    (c : String) (u : TempUnit) (e : String)
    (hfail : getWeather env { city := c, temperature_unit := u } = .error e) :
    (handleGetWeather env s c u).1.activeTab = s.activeTab := by
  unfold handleGetWeather
  by_cases hc : c = ""
  · rw [if_pos hc]
  · rw [if_neg hc, hfail]

/-- On a successful resolution of a non-empty city, savedCities is unchanged when
the city is already saved, and gets the city appended otherwise. -/
theorem handleGetWeather_savedCities_ok (env : WeatherEnv) (s : AppState)
    (c : String) (u : TempUnit) (w : GetWeatherOutput) (hc : c ≠ "")
    (hok : getWeather env { city := c, temperature_unit := u } = .ok w) :
    (handleGetWeather env s c u).1.savedCities =
      if c ∈ s.savedCities then s.savedCities else s.savedCities ++ [c] := by
  unfold handleGetWeather
  rw [if_neg hc, hok]
  dsimp only
  split <;> simp_all

/-- On a successful resolution of a non-empty city, the city becomes the active tab. -/
theorem handleGetWeather_activeTab_ok (env : WeatherEnv) (s : AppState)
    (c : String) (u : TempUnit) (w : GetWeatherOutput) (hc : c ≠ "")
    (hok : getWeather env { city := c, temperature_unit := u } = .ok w) :
    (handleGetWeather env s c u).1.activeTab = c := by
  unfold handleGetWeather
  rw [if_neg hc, hok]

/-- The guarded no-op: an empty search city leaves the state unchanged and issues
no request. -/
theorem handleGetWeather_empty (env : WeatherEnv) (s : AppState) (u : TempUnit) :
    handleGetWeather env s "" u = (s, []) := by
  unfold handleGetWeather
  rw [if_pos rfl]

/-! Claims C2 and C3. -/

/-- A state with two saved cities, Rome active, and cached snapshots for both. -/
def twoCityState : AppState :=
  { savedCities := ["Paris", "Rome"]
    activeTab := "Rome"
    weatherData := fun k =>
      if k = "Paris" then some (some demoOutput)
      else if k = "Rome" then some (some demoOutput) else none
    tempUnit := TempUnit.celsius }

/-- C2 counterexample: toggling the unit from celsius to fahrenheit with two
saved cities (Rome active) issues exactly one re-fetch — for Rome only, not one
per saved city — and Paris's cached snapshot (its temperature field included)
is not updated. -/
theorem c2_unit_toggle_single_refetch_cex :
    (handleUnitChange demoEnv twoCityState true).2 =
      [{ city := "Rome", temperature_unit := TempUnit.fahrenheit }] ∧
    (handleUnitChange demoEnv twoCityState true).2.length ≠ 2 ∧
    (handleUnitChange demoEnv twoCityState true).1.weatherData "Paris" =
      twoCityState.weatherData "Paris" := by
  refine ⟨rfl, ?_, rfl⟩
  have h : (handleUnitChange demoEnv twoCityState true).2.length = 1 := rfl
  rw [h]
  decide

/-- C2 (amended): toggling the temperature unit while a tab is active triggers
exactly one re-fetch — of the active city, with the new unit — and every other
city's weather-mapping entry is left exactly as it was (in particular a failure
of that single re-fetch cannot affect the other saved city's snapshot). -/
theorem c2_unit_toggle_refetches_active_only (env : WeatherEnv) (s : AppState)
    (checked : Bool) (h : s.activeTab ≠ "") :
    (handleUnitChange env s checked).2 =
      [{ city := s.activeTab,
         temperature_unit := if checked then TempUnit.fahrenheit else TempUnit.celsius }] ∧
    ∀ c, c ≠ s.activeTab →
      (handleUnitChange env s checked).1.weatherData c = s.weatherData c := by
  have hstep :
      handleUnitChange env s checked =
        handleGetWeather env
          { s with tempUnit := if checked then TempUnit.fahrenheit else TempUnit.celsius }
          s.activeTab (if checked then TempUnit.fahrenheit else TempUnit.celsius) := by
    unfold handleUnitChange
    rw [if_neg h]
  rw [hstep]
  exact ⟨handleGetWeather_calls env _ s.activeTab _ h,
    fun c hcne => handleGetWeather_other_entries env _ s.activeTab _ c hcne⟩

/-- C2 witness: the amended theorem at the concrete two-city state. -/
theorem c2_unit_toggle_refetches_active_only_witness :
    (handleUnitChange demoEnv twoCityState true).2 =
      [{ city := "Rome",
         temperature_unit := if true then TempUnit.fahrenheit else TempUnit.celsius }] ∧
    ∀ c, c ≠ "Rome" →
      (handleUnitChange demoEnv twoCityState true).1.weatherData c =
        twoCityState.weatherData c :=
  c2_unit_toggle_refetches_active_only demoEnv twoCityState true (by decide)

/-- An environment in which geocoding succeeds but the conditions fetch fails. -/
def conditionsFailEnv : WeatherEnv where
  geo := fun _ => some { results := some [demoLocation] }
  wx := fun _ _ _ => none
  summarize := fun _ _ _ => .ok "unused"
  search := fun _ => none

/-- A state holding a previously cached snapshot for Paris. -/
def cachedParisState : AppState :=
  { savedCities := ["Paris"]
    activeTab := "Paris"
    weatherData := fun k => if k = "Paris" then some (some demoOutput) else none
    tempUnit := TempUnit.celsius }

/-- C3 counterexample: a re-run for Paris that fails at the conditions-fetch step
does not leave the previously cached snapshot untouched — the mapping entry for
Paris is the null loading marker afterwards, not its previous value. -/
theorem c3_failed_rerun_clears_cache_cex :
    (handleGetWeather conditionsFailEnv cachedParisState "Paris"
        TempUnit.celsius).1.weatherData "Paris" ≠
      cachedParisState.weatherData "Paris" := by
  have h1 : (handleGetWeather conditionsFailEnv cachedParisState "Paris"
      TempUnit.celsius).1.weatherData "Paris" = some none := rfl
  have h2 : cachedParisState.weatherData "Paris" = some (some demoOutput) := rfl
  rw [h1, h2]
  simp

/-- C3 (amended): a failed re-run for a city clears that city's weather-mapping
entry: handleGetWeather writes the null loading marker before fetching, and a
failure at any pipeline step leaves that marker in place, so after the failed
run the entry is the null marker rather than the previously cached snapshot. -/
theorem c3_failed_rerun_clears_entry (env : WeatherEnv) (s : AppState) (c : String)
    (u : TempUnit) (e : String) (hc : c ≠ "")
    (hfail : getWeather env { city := c, temperature_unit := u } = .error e) :
    (handleGetWeather env s c u).1.weatherData c = some none := by
  unfold handleGetWeather
  rw [if_neg hc, hfail]
  simp [setWeatherEntry]

/-- C3 witness: the amended theorem at the concrete cached state and failing
environment. -/
theorem c3_failed_rerun_clears_entry_witness :
    (handleGetWeather conditionsFailEnv cachedParisState "Paris"
        TempUnit.celsius).1.weatherData "Paris" = some none :=
  c3_failed_rerun_clears_entry conditionsFailEnv cachedParisState "Paris"
    TempUnit.celsius "Failed to fetch weather data." (by decide) rfl

/-! Helper lemmas about removeCity and the active-tab invariant. -/

/-- The head-with-default of a non-empty list is a member of it. -/
theorem headD_mem_of_ne_nil (l : List String) (h : l ≠ []) : l.headD "" ∈ l := by
  cases l with
  | nil => exact absurd rfl h
  | cons a t => simp

/-- removeCity filters the removed city out of savedCities. -/
theorem removeCity_savedCities (s : AppState) (c : String) :
    (removeCity s c).savedCities = s.savedCities.filter (fun x => x ≠ c) := rfl

/-- removeCity preserves the active-tab invariant. -/
theorem removeCity_inv (s : AppState) (c : String) (hInv : ActiveInv s) :
    ActiveInv (removeCity s c) := by
  unfold ActiveInv removeCity
  dsimp only
  split_ifs with h1 h2
  · intro _
    have hne : s.savedCities.filter (fun x => x ≠ c) ≠ [] := by
      intro hnil
      rw [hnil] at h1
      exact absurd h1.2 (by simp)
    exact headD_mem_of_ne_nil _ hne
  · intro h
    exact absurd rfl h
  · intro hne
    have h0 : 0 < (s.savedCities.filter (fun x => x ≠ c)).length :=
      Nat.pos_of_ne_zero h2
    have hac : s.activeTab ≠ c := fun he => h1 ⟨he, h0⟩
    exact List.mem_filter.2 ⟨hInv hne, by simpa using hac⟩

/-- handleGetWeather preserves the active-tab invariant. -/
theorem handleGetWeather_inv (env : WeatherEnv) (s : AppState) (c : String)
    (u : TempUnit) (hInv : ActiveInv s) : ActiveInv (handleGetWeather env s c u).1 := by
  by_cases hc : c = ""
  · subst hc
    rw [handleGetWeather_empty]
    exact hInv
  · cases hgw : getWeather env { city := c, temperature_unit := u } with
    | error e =>
      intro h
      rw [handleGetWeather_activeTab_error env s c u e hgw] at h ⊢
      rw [handleGetWeather_savedCities_error env s c u e hgw]
      exact hInv h
    | ok w =>
      intro h
      rw [handleGetWeather_activeTab_ok env s c u w hc hgw,
        handleGetWeather_savedCities_ok env s c u w hc hgw]
      split_ifs with hmem
      · exact hmem
      · simp

/-- handleUnitChange preserves the active-tab invariant. -/
theorem handleUnitChange_inv (env : WeatherEnv) (s : AppState) (b : Bool)
    (hInv : ActiveInv s) : ActiveInv (handleUnitChange env s b).1 := by
  unfold handleUnitChange
  dsimp only
  by_cases h : s.activeTab = ""
  · rw [if_pos h]
    intro hne
    exact hInv hne
  · rw [if_neg h]
    have hInv2 : ActiveInv
        { s with tempUnit := if b then TempUnit.fahrenheit else TempUnit.celsius } :=
      fun hne => hInv hne
    exact handleGetWeather_inv env _ _ _ hInv2

/-- Removing the active city when it is saved, the list has no duplicates and
more than one element reassigns the active tab to a member of the remaining
list (in particular a city different from the removed one). -/
theorem removeCity_active_reassigned (s : AppState) (hnd : s.savedCities.Nodup)
    (hmem : s.activeTab ∈ s.savedCities) (hlen : 1 < s.savedCities.length) :
    (removeCity s s.activeTab).activeTab ∈ (removeCity s s.activeTab).savedCities ∧
    (removeCity s s.activeTab).activeTab ≠ s.activeTab := by
  have hne : s.savedCities.filter (fun x => x ≠ s.activeTab) ≠ [] := by
    intro hnil
    have hall : ∀ x ∈ s.savedCities, x = s.activeTab := by
      intro x hx
      have hx2 := List.filter_eq_nil_iff.1 hnil x hx
      simpa using hx2
    match s.savedCities, hnd, hlen, hall with
    | a :: b :: t, hnd, hlen, hall =>
      have ha : a = s.activeTab := hall a (by simp)
      have hb : b = s.activeTab := hall b (by simp)
      have : a ≠ b := by
        have := hnd
        simp only [List.nodup_cons, List.mem_cons] at this
        exact fun he => this.1 (Or.inl he)
      exact this (ha.trans hb.symm)
  have hact : (removeCity s s.activeTab).activeTab =
      (s.savedCities.filter (fun x => x ≠ s.activeTab)).headD "" := by
    unfold removeCity
    dsimp only
    rw [if_pos ⟨rfl, Nat.pos_of_ne_zero (fun h0 => hne (List.length_eq_zero.1 h0))⟩]
  constructor
  · rw [hact, removeCity_savedCities]
    exact headD_mem_of_ne_nil _ hne
  · rw [hact]
    intro heq
    have := headD_mem_of_ne_nil _ hne
    rw [heq] at this
    have := List.mem_filter.1 this
    simp at this

/-- Removing the last remaining city clears the active tab to the empty string. -/
theorem removeCity_last_clears (s : AppState) (c : String)
    (h : s.savedCities = [c]) : (removeCity s c).activeTab = "" := by
  unfold removeCity
  dsimp only
  rw [h]
  simp

/-- C5: the active tab, when set, always references an entry of savedCities:
removeCity, handleGetWeather, handleUnitChange and tab selection (restricted to
rendered saved cities) all preserve the invariant; removing the active city
from a duplicate-free list of more than one city reassigns the active tab to a
remaining member, and removing the last remaining city clears it to empty. -/
theorem c5_active_city_invariant :
    (∀ s c, ActiveInv s → ActiveInv (removeCity s c)) ∧
    (∀ env s c u, ActiveInv s → ActiveInv (handleGetWeather env s c u).1) ∧
    (∀ env s b, ActiveInv s → ActiveInv (handleUnitChange env s b).1) ∧
    (∀ s c, c ∈ s.savedCities → ActiveInv (selectTab s c)) ∧
    (∀ s, s.savedCities.Nodup → s.activeTab ∈ s.savedCities →
      1 < s.savedCities.length →
      (removeCity s s.activeTab).activeTab ∈ (removeCity s s.activeTab).savedCities ∧
      (removeCity s s.activeTab).activeTab ≠ s.activeTab) ∧
    (∀ s c, s.savedCities = [c] → (removeCity s c).activeTab = "") :=
  ⟨removeCity_inv,
   handleGetWeather_inv,
   handleUnitChange_inv,
   fun _ c hc _ => hc,
   fun s hnd hmem hlen => removeCity_active_reassigned s hnd hmem hlen,
   removeCity_last_clears⟩

/-- C5 witness: all six parts at concrete states. -/
theorem c5_active_city_invariant_witness :
    ActiveInv (removeCity twoCityState "Rome") ∧
    ActiveInv (handleGetWeather demoEnv twoCityState "Lyon" TempUnit.celsius).1 ∧
    ActiveInv (handleUnitChange demoEnv twoCityState true).1 ∧
    ActiveInv (selectTab twoCityState "Paris") ∧
    ((removeCity twoCityState twoCityState.activeTab).activeTab ∈
        (removeCity twoCityState twoCityState.activeTab).savedCities ∧
      (removeCity twoCityState twoCityState.activeTab).activeTab ≠
        twoCityState.activeTab) ∧
    (removeCity cachedParisState "Paris").activeTab = "" :=
  ⟨c5_active_city_invariant.1 twoCityState "Rome" (fun _ => by decide),
   c5_active_city_invariant.2.1 demoEnv twoCityState "Lyon" TempUnit.celsius
     (fun _ => by decide),
   c5_active_city_invariant.2.2.1 demoEnv twoCityState true (fun _ => by decide),
   c5_active_city_invariant.2.2.2.1 twoCityState "Paris" (by decide),
   c5_active_city_invariant.2.2.2.2.1 twoCityState (by decide) (by decide) (by decide),
   c5_active_city_invariant.2.2.2.2.2 cachedParisState "Paris" rfl⟩

/-- C10: removing the currently active city with a non-empty remaining list
makes the first element of the remaining list (the oldest saved city) the new
active tab; removing a city that is not the active one leaves the active tab
unchanged. -/
theorem c10_remove_active_selects_first :
    (∀ s c, s.activeTab = c → (removeCity s c).savedCities ≠ [] →
      (removeCity s c).activeTab = (removeCity s c).savedCities.headD "") ∧
    (∀ s c, ActiveInv s → s.activeTab ≠ c →
      (removeCity s c).activeTab = s.activeTab) := by
  constructor
  · intro s c hact hne
    rw [removeCity_savedCities] at hne ⊢
    unfold removeCity
    dsimp only
    rw [if_pos ⟨hact, Nat.pos_of_ne_zero (fun h0 => hne (List.length_eq_zero.1 h0))⟩]
  · intro s c hInv hne
    unfold removeCity
    dsimp only
    split_ifs with h1 h2
    · exact absurd h1.1 hne
    · by_cases hset : s.activeTab = ""
      · exact hset.symm
      · have hmem := hInv hset
        have : s.activeTab ∈ s.savedCities.filter (fun x => x ≠ c) :=
          List.mem_filter.2 ⟨hmem, by simpa using hne⟩
        rw [List.length_eq_zero.1 h2] at this
        simp at this
    · rfl

/-- C10 witness: removing active Rome from the two-city state selects Paris (the
first remaining city); removing non-active Paris keeps Rome active. -/
theorem c10_remove_active_selects_first_witness :
    (removeCity twoCityState "Rome").activeTab =
      (removeCity twoCityState "Rome").savedCities.headD "" ∧
    (removeCity twoCityState "Paris").activeTab = twoCityState.activeTab :=
  ⟨c10_remove_active_selects_first.1 twoCityState "Rome" rfl (by decide),
   c10_remove_active_selects_first.2 twoCityState "Paris" (fun _ => by decide)
     (by decide)⟩

/-! Claim C4: idempotent append to the saved-city list. -/

/-- handleGetWeather preserves freedom from duplicates of savedCities. -/
theorem handleGetWeather_nodup (env : WeatherEnv) (s : AppState) (c : String)
    (u : TempUnit) (h : s.savedCities.Nodup) :
    (handleGetWeather env s c u).1.savedCities.Nodup := by
  by_cases hc : c = ""
  · subst hc
    rw [handleGetWeather_empty]
    exact h
  · cases hgw : getWeather env { city := c, temperature_unit := u } with
    | error e =>
      rw [handleGetWeather_savedCities_error env s c u e hgw]
      exact h
    | ok w =>
      rw [handleGetWeather_savedCities_ok env s c u w hc hgw]
      split_ifs with hmem
      · exact h
      · simp [List.nodup_append, h, hmem]

/-- Any sequence of resolution runs preserves freedom from duplicates. -/
theorem runResolutions_nodup (env : WeatherEnv) (rs : List (String × TempUnit)) :
    ∀ s : AppState, s.savedCities.Nodup → (runResolutions env s rs).savedCities.Nodup := by
  induction rs with
  | nil => exact fun s h => h
  | cons p rest ih =>
    intro s h
    obtain ⟨c, u⟩ := p
    exact ih _ (handleGetWeather_nodup env s c u h)

/-- Modelled from the spec: insertion order of SavedCityList equals the order of
first successful fetch — the sequence of fetched city names with only the first
occurrence of each name kept. -/
def firstOccurrences (cs : List String) : List String :=
  cs.foldl (fun acc c => if c ∈ acc then acc else acc ++ [c]) []

/-- When every resolution of the sequence succeeds, the final savedCities is the
fold of the idempotent-append step over the fetched city names. -/
theorem runResolutions_saved_foldl (env : WeatherEnv) (rs : List (String × TempUnit)) :
    ∀ s : AppState,
      (∀ p ∈ rs, p.1 ≠ "" ∧
        ∃ w, getWeather env { city := p.1, temperature_unit := p.2 } = .ok w) →
      (runResolutions env s rs).savedCities =
        (rs.map Prod.fst).foldl
          (fun acc c => if c ∈ acc then acc else acc ++ [c]) s.savedCities := by
  induction rs with
  | nil => exact fun s _ => rfl
  | cons p rest ih =>
    intro s h
    obtain ⟨c, u⟩ := p
    obtain ⟨hc, w, hw⟩ := h (c, u) (List.mem_cons_self _ _)
    have hs := handleGetWeather_savedCities_ok env s c u w hc hw
    show (runResolutions env (handleGetWeather env s c u).1 rest).savedCities = _
    rw [ih _ (fun q hq => h q (List.mem_cons_of_mem _ hq)), hs]
    simp

/-- C4: a successful resolution appends the city name to savedCities only when
it is not already present (idempotent append); no sequence of resolution runs
ever introduces a duplicate; after a successful resolution the city appears in
a duplicate-free list exactly once; and from an empty list, a sequence of
successful resolutions yields the names in order of first successful fetch. -/
theorem c4_saved_city_idempotent_append :
    (∀ (env : WeatherEnv) (s : AppState) c u w, c ≠ "" →
      getWeather env { city := c, temperature_unit := u } = .ok w →
      c ∈ s.savedCities →
      (handleGetWeather env s c u).1.savedCities = s.savedCities) ∧
    (∀ (env : WeatherEnv) (s : AppState) c u w, c ≠ "" →
      getWeather env { city := c, temperature_unit := u } = .ok w →
      c ∉ s.savedCities →
      (handleGetWeather env s c u).1.savedCities = s.savedCities ++ [c]) ∧
    (∀ (env : WeatherEnv) (rs : List (String × TempUnit)) (s : AppState),
      s.savedCities.Nodup → (runResolutions env s rs).savedCities.Nodup) ∧
    (∀ (env : WeatherEnv) (s : AppState) c u w, c ≠ "" →
      getWeather env { city := c, temperature_unit := u } = .ok w →
      s.savedCities.Nodup →
      (handleGetWeather env s c u).1.savedCities.count c = 1) ∧
    (∀ (env : WeatherEnv) (rs : List (String × TempUnit)) (s : AppState),
      s.savedCities = [] →
      (∀ p ∈ rs, p.1 ≠ "" ∧
        ∃ w, getWeather env { city := p.1, temperature_unit := p.2 } = .ok w) →
      (runResolutions env s rs).savedCities = firstOccurrences (rs.map Prod.fst)) := by
  refine ⟨?_, ?_, ?_, ?_, ?_⟩
  · intro env s c u w hc hok hmem
    rw [handleGetWeather_savedCities_ok env s c u w hc hok, if_pos hmem]
  · intro env s c u w hc hok hmem
    rw [handleGetWeather_savedCities_ok env s c u w hc hok, if_neg hmem]
  · exact fun env rs s h => runResolutions_nodup env rs s h
  · intro env s c u w hc hok hnd
    rw [handleGetWeather_savedCities_ok env s c u w hc hok]
    split_ifs with hmem
    · exact List.count_eq_one_of_mem hnd hmem
    · rw [List.count_append]
      simp [List.count_eq_zero_of_not_mem hmem]
  · intro env rs s hempty hall
    rw [runResolutions_saved_foldl env rs s hall, hempty]
    rfl

/-- An initial session state: nothing saved, no active tab, empty cache. -/
def emptyState : AppState :=
  { savedCities := [], activeTab := "", weatherData := fun _ => none,
    tempUnit := TempUnit.celsius }

/-- C4 witness: all five parts at concrete cities and the all-success demo
environment, including a repeated fetch of Paris producing no duplicate. -/
theorem c4_saved_city_idempotent_append_witness :
    (handleGetWeather demoEnv twoCityState "Rome" TempUnit.celsius).1.savedCities =
      twoCityState.savedCities ∧
    (handleGetWeather demoEnv twoCityState "Lyon" TempUnit.celsius).1.savedCities =
      twoCityState.savedCities ++ ["Lyon"] ∧
    (runResolutions demoEnv twoCityState
      [("Paris", TempUnit.celsius), ("Paris", TempUnit.celsius)]).savedCities.Nodup ∧
    (handleGetWeather demoEnv twoCityState "Rome" TempUnit.celsius).1.savedCities.count
      "Rome" = 1 ∧
    (runResolutions demoEnv emptyState
      [("Paris", TempUnit.celsius), ("Rome", TempUnit.celsius),
       ("Paris", TempUnit.celsius)]).savedCities =
      firstOccurrences ["Paris", "Rome", "Paris"] :=
  ⟨c4_saved_city_idempotent_append.1 demoEnv twoCityState "Rome" TempUnit.celsius
      demoOutput (by decide) rfl (by decide),
   c4_saved_city_idempotent_append.2.1 demoEnv twoCityState "Lyon" TempUnit.celsius
      demoOutput (by decide) rfl (by decide),
   c4_saved_city_idempotent_append.2.2.1 demoEnv
      [("Paris", TempUnit.celsius), ("Paris", TempUnit.celsius)] twoCityState
      (by decide),
   c4_saved_city_idempotent_append.2.2.2.1 demoEnv twoCityState "Rome"
      TempUnit.celsius demoOutput (by decide) rfl (by decide),
   c4_saved_city_idempotent_append.2.2.2.2 demoEnv
      [("Paris", TempUnit.celsius), ("Rome", TempUnit.celsius),
       ("Paris", TempUnit.celsius)] emptyState rfl
      (by
        intro p hp
        refine ⟨?_, demoOutput, rfl⟩
        simp only [List.mem_cons, List.not_mem_nil, or_false] at hp
        rcases hp with rfl | rfl | rfl <;> decide)⟩

/-! Claim C9: trailing-edge debounce of the autocomplete. -/

/-- A pending timer strictly beyond the current time does not fire. -/
theorem firePending_of_lt (t : Nat) (s : DebounceState)
    (h : ∀ d q, s.pending = some (d, q) → t < d) : firePending t s = s := by
  unfold firePending
  cases hsp : s.pending with
  | none => rfl
  | some dq =>
    obtain ⟨d, q⟩ := dq
    dsimp only
    rw [if_neg (by have := h d q hsp; omega)]

/-- A keystroke never issues a network call by itself. -/
theorem handleCitySearch_calls (t : Nat) (q : String) (s : DebounceState) :
    (handleCitySearch t q s).calls = s.calls := by
  unfold handleCitySearch
  dsimp only
  split_ifs <;> rfl

/-- After a keystroke the pending slot holds exactly the timer for that
keystroke (when its query is long enough), all earlier timers cancelled. -/
theorem handleCitySearch_pending (t : Nat) (q : String) (s : DebounceState) :
    (handleCitySearch t q s).pending =
      if 1 < q.length then some (t + DEBOUNCE_MS, q) else none := by
  unfold handleCitySearch
  dsimp only
  split_ifs <;> rfl

/-- Running a rapid keystroke sequence fires no timer: the calls list is
unchanged, and afterwards the pending slot holds the timer of the last
keystroke (or is empty for an empty sequence or a short final query). -/
theorem runKeystrokes_spec (evts : List (Nat × String)) :
    ∀ s : DebounceState, withinWindow evts →
      (∀ d q t qq, s.pending = some (d, q) → evts.head? = some (t, qq) → t < d) →
      (runKeystrokes s evts).calls = s.calls ∧
      ((evts = [] ∧ (runKeystrokes s evts).pending = s.pending) ∨
        (∃ t q, evts.getLast? = some (t, q) ∧
          (runKeystrokes s evts).pending =
            if 1 < q.length then some (t + DEBOUNCE_MS, q) else none)) := by
  induction evts with
  | nil => exact fun s _ _ => ⟨rfl, Or.inl ⟨rfl, rfl⟩⟩
  | cons e rest ih =>
    obtain ⟨t, q⟩ := e
    intro s hw hp
    have hfp : firePending t s = s :=
      firePending_of_lt t s (fun d q0 hs => hp d q0 t q hs rfl)
    have hstep : runKeystrokes s ((t, q) :: rest) =
        runKeystrokes (handleCitySearch t q s) rest := by
      show runKeystrokes (handleCitySearch t q (firePending t s)) rest = _
      rw [hfp]
    have hcalls2 : (handleCitySearch t q s).calls = s.calls := handleCitySearch_calls t q s
    have hpend2 : (handleCitySearch t q s).pending =
        if 1 < q.length then some (t + DEBOUNCE_MS, q) else none :=
      handleCitySearch_pending t q s
    have hwrest : withinWindow rest := by
      cases rest with
      | nil => trivial
      | cons e2 r2 =>
        obtain ⟨t2, q2⟩ := e2
        exact hw.2.2
    have hprest : ∀ d q0 t2 qq, (handleCitySearch t q s).pending = some (d, q0) →
        rest.head? = some (t2, qq) → t2 < d := by
      intro d q0 t2 qq hsp hhd
      cases rest with
      | nil => simp at hhd
      | cons e2 r2 =>
        obtain ⟨t2x, q2x⟩ := e2
        have ht2 : t2 = t2x := by
          simp only [List.head?_cons, Option.some.injEq] at hhd
          exact (congrArg Prod.fst hhd.symm)
        rw [hpend2] at hsp
        split_ifs at hsp with hlen
        have hd : t + DEBOUNCE_MS = d := congrArg Prod.fst (Option.some.inj hsp)
        have hlt : t2x < t + DEBOUNCE_MS := hw.2.1
        omega
    obtain ⟨hcallsr, hrestp⟩ := ih (handleCitySearch t q s) hwrest hprest
    refine ⟨by rw [hstep, hcallsr, hcalls2], ?_⟩
    rcases hrestp with ⟨hre, hpe⟩ | ⟨t', q', hgl, hpend⟩
    · right
      subst hre
      refine ⟨t, q, rfl, ?_⟩
      rw [hstep, hpe, hpend2]
    · right
      refine ⟨t', q', ?_, ?_⟩
      · cases rest with
        | nil => cases hgl
        | cons e2 r2 =>
          rw [← hgl]
          rfl
      · rw [hstep]
        exact hpend

/-- C9: the autocomplete debounce is trailing-edge: each keystroke cancels any
pending scheduled fetch and schedules a fetch of its own query 300 ms later, so
for a rapid keystroke sequence (consecutive gaps under 300 ms) starting from an
idle state, at most one network call is ever issued, and it carries the final
input value (none at all when the final query is shorter than 2 characters). -/
theorem c9_debounce_trailing (evts : List (Nat × String)) (hne : evts ≠ [])
    (hw : withinWindow evts) (t : Nat) (q : String)
    (hlast : evts.getLast? = some (t, q)) :
    (flushTimers (runKeystrokes
        { city := "", pending := none, calls := [] } evts)).calls =
      if 1 < q.length then [q] else [] := by
  obtain ⟨hcalls, hrest⟩ :=
    runKeystrokes_spec evts { city := "", pending := none, calls := [] } hw
      (by intro d q0 t0 qq h0 _; cases h0)
  rcases hrest with ⟨hre, _⟩ | ⟨t', q', hgl, hpend⟩
  · exact absurd hre hne
  · rw [hgl] at hlast
    obtain ⟨rfl, rfl⟩ : t' = t ∧ q' = q := by
      have := Option.some.inj hlast
      exact ⟨congrArg Prod.fst this, congrArg Prod.snd this⟩
    unfold flushTimers
    rw [hpend]
    split_ifs with hlen
    · dsimp only
      rw [hcalls]
      rfl
    · dsimp only
      rw [hcalls]

/-- C9 witness: three rapid keystrokes "L", "Lo", "Lon" at 0, 100 and 250 ms
issue exactly one suggestion fetch, for the final value "Lon". -/
theorem c9_debounce_trailing_witness :
    (flushTimers (runKeystrokes { city := "", pending := none, calls := [] }
        [(0, "L"), (100, "Lo"), (250, "Lon")])).calls =
      if 1 < "Lon".length then ["Lon"] else [] :=
  c9_debounce_trailing [(0, "L"), (100, "Lo"), (250, "Lon")] (by decide)
    (by simp [withinWindow, DEBOUNCE_MS]) 250 "Lon" (by decide)

end WeatherApp
